import Mathlib

/-!
# Portfolio web server (`main.go`): embedding and verified properties

The program is route-to-template plumbing on top of Go's `net/http` and
`html/template`.  The embedding has three layers.

* The data records and the handler functions of `main.go`, translated
  literally.  Every handler body is "assemble a `TemplateData`, then call
  `renderTemplate(w, name, data)`"; a handler is embedded as the function
  from the request to the arguments of that call (`Render`), and
  `Handler.ServeHTTP` performs the call.
* The parts of the standard library the program's behaviour rests on:
  the response writer (`WriteHeader`, `Write`, `http.Error`), the classic
  `ServeMux` (`Handle`, `match`, `Handler`, path cleaning and the
  trailing-slash redirect), `template.ParseFiles` / `template.Must` /
  `ExecuteTemplate`.
* What the program cannot see from its own text is a parameter (`Env`):
  the contents of the template files, the static file server and whether
  the listener can be bound.
-/

namespace Portfolio

/-! ## Data model (main.go, lines 10-29) -/

/-- Go `type Project struct`. -/
structure Project where
  Name : String
  Description : String
  DemoURL : String
  RepoURL : String
deriving DecidableEq, Repr

/-- Go `type BlogPost struct`; `Content` has Go type `template.HTML`, a string
that the template engine does not escape again. -/
structure BlogPost where
  Title : String
  Content : String
  Slug : String
deriving DecidableEq, Repr

/-- Go `type TemplateData struct`; an omitted slice field is Go's nil slice. -/
structure TemplateData where
  PageTitle : String
  Projects : List Project := []
  BlogPosts : List BlogPost := []
deriving DecidableEq, Repr

/-! ## Strings and paths -/

/-- Go `strings.HasPrefix`. -/
def HasPrefix (s pfx : String) : Bool :=
  pfx.data.isPrefixOf s.data

/-- Go `strings.TrimPrefix`. -/
def TrimPrefix (s pfx : String) : String :=
  if HasPrefix s pfx then String.mk (s.data.drop pfx.data.length) else s

/-- Go `len(s)`: the length in bytes. -/
def len (s : String) : Nat :=
  s.utf8ByteSize

/-- A string in double quotes, as Go's `%q` prints a plain name. -/
def quote (s : String) : String :=
  "\x22" ++ s ++ "\x22"

/-- Go `filepath.Join` of a directory and a file name that are both clean
and non-empty, the only use `main.go` makes of it. -/
def Join (dir file : String) : String :=
  dir ++ "/" ++ file

/-- Go `filepath.Base`: trailing slashes are dropped, then everything up to
the last slash; the empty path gives `.`, a path of slashes gives `/`. -/
def Base (path : String) : String :=
  if path = "" then "."
  else
    let trimmed := path.data.reverse.dropWhile (fun c => c == '/')
    let last := (trimmed.takeWhile (fun c => c != '/')).reverse
    if last = [] then "/" else String.mk last

/-- The elements of a path between its slashes. -/
def splitSlash : List Char → List (List Char)
  | [] => [[]]
  | c :: cs =>
    if c = '/' then [] :: splitSlash cs
    else
      match splitSlash cs with
      | [] => [[c]]
      | s :: ss => (c :: s) :: ss

/-- The element stack of `path.Clean` on a rooted path: empty and `.`
elements are dropped, `..` removes the element before it and is dropped at
the root.  `acc` is the stack, top first. -/
def cleanSegments : List (List Char) → List (List Char) → List (List Char)
  | [], acc => acc.reverse
  | seg :: rest, acc =>
    if seg = [] ∨ seg = ['.'] then cleanSegments rest acc
    else if seg = ['.', '.'] then cleanSegments rest acc.tail
    else cleanSegments rest (seg :: acc)

/-- Go `path.Clean` on a rooted path (one that starts with a slash), the
only kind `cleanPath` hands to it. -/
def Clean (p : String) : String :=
  String.mk ('/' :: List.intercalate ['/'] (cleanSegments (splitSlash p.data) []))

/-- Go `net/http.cleanPath`: the canonical form of a request path, with a
leading slash, without `.`, `..` and empty elements, keeping a trailing
slash. -/
def cleanPath (p : String) : String :=
  if p = "" then "/"
  else
    let p1 := if p.data.head? = some '/' then p else "/" ++ p
    let np := Clean p1
    if p1.data.getLast? = some '/' ∧ np ≠ "/" then
      if len p1 = len np + 1 ∧ HasPrefix p1 np = true then p1 else np ++ "/"
    else np

/-! ## The response writer -/

/-- HTTP status codes used by the program and by the library paths it reaches. -/
def StatusOK : Nat := 200

/-- Go `http.StatusMovedPermanently`. -/
def StatusMovedPermanently : Nat := 301

/-- Go `http.StatusNotFound`. -/
def StatusNotFound : Nat := 404

/-- Go `http.StatusInternalServerError`. -/
def StatusInternalServerError : Nat := 500

/-- The state of an `http.ResponseWriter`: the header map the handler edits,
whether the status line has been sent, the status and headers that were sent,
and the body bytes written so far.  Headers the server adds on its own
(`Date`, `Content-Length`, a sniffed `Content-Type`) are not modelled. -/
structure ResponseWriter where
  header : List (String × String) := []
  wroteHeader : Bool := false
  status : Nat := 0
  sentHeader : List (String × String) := []
  body : String := ""
deriving DecidableEq, Repr

namespace ResponseWriter

/-- `w.Header().Del(key)`. -/
def Del (w : ResponseWriter) (key : String) : ResponseWriter :=
  { w with header := w.header.filter (fun kv => kv.1 != key) }

/-- `w.Header().Set(key, value)`. -/
def Set (w : ResponseWriter) (key value : String) : ResponseWriter :=
  { w with header := (w.header.filter (fun kv => kv.1 != key)) ++ [(key, value)] }

/-- `w.WriteHeader(code)`: the first call sends the status line and the
headers; a later call is ignored (the server logs it as superfluous). -/
def WriteHeader (w : ResponseWriter) (code : Nat) : ResponseWriter :=
  if w.wroteHeader then w
  else { w with wroteHeader := true, status := code, sentHeader := w.header }

/-- `w.Write(b)`: sends the header with status 200 when none was sent yet,
then appends to the body. -/
def Write (w : ResponseWriter) (b : String) : ResponseWriter :=
  let w1 := if w.wroteHeader then w else w.WriteHeader StatusOK
  { w1 with body := w1.body ++ b }

/-- What the server does when the handler returns: a response whose header
was never written goes out with status 200. -/
def finishRequest (w : ResponseWriter) : ResponseWriter :=
  if w.wroteHeader then w else w.WriteHeader StatusOK

end ResponseWriter

/-- Go `http.Error(w, error, code)`: sets the plain-text headers, writes the
status and prints the message followed by a newline. -/
def Error (w : ResponseWriter) (error : String) (code : Nat) : ResponseWriter :=
  let w1 := w.Del "Content-Length"
  let w2 := w1.Set "Content-Type" "text/plain; charset=utf-8"
  let w3 := w2.Set "X-Content-Type-Options" "nosniff"
  let w4 := w3.WriteHeader code
  w4.Write (error ++ "\n")

/-! ## Templates -/

/-- The error `ExecuteTemplate` can return: the name is not in the set, or
the template failed while running. -/
inductive ExecError where
  | undefined (name : String)
  | failed (cause : String)
deriving DecidableEq, Repr

/-- The text `err.Error()` gives, which `%v` prints in the log line. -/
def ExecError.Error : ExecError → String
  | ExecError.undefined name => "html/template: " ++ quote name ++ " is undefined"
  | ExecError.failed cause => cause

/-- One run of a template: the `Write` calls it made on the response, in
order, and the error it stopped with, if any. -/
structure ExecResult where
  writes : List String
  err : Option String
deriving DecidableEq, Repr

/-- A compiled template, seen from outside: what it writes for a data
record.  The template files are not part of the program text, so every
property is proved for all such behaviours. -/
abbrev Template := TemplateData → ExecResult

/-- The template collection: the named templates of the set, newest first
for a name that was defined again. -/
abbrev TemplateSet := List (String × Template)

/-- Go `(*Template).ExecuteTemplate(w, name, data)`: a name that is not in
the set is an error before anything is written; otherwise the template
writes to `w` as it runs and its error, if any, is returned after the
writes it had already made. -/
def ExecuteTemplate (t : TemplateSet) (w : ResponseWriter) (name : String)
    (data : TemplateData) : ResponseWriter × Option ExecError :=
  match t.lookup name with
  | none => (w, some (ExecError.undefined name))
  | some tmpl =>
    let r := tmpl data
    (r.writes.foldl ResponseWriter.Write w, r.err.map ExecError.failed)

/-- main.go, lines 44-50.  The second component is the lines given to
`log.Printf`. -/
def renderTemplate (templates : TemplateSet) (w : ResponseWriter) (tmpl : String)
    (data : TemplateData) : ResponseWriter × List String :=
  match ExecuteTemplate templates w tmpl data with
  | (w1, none) => (w1, [])
  | (w1, some err) =>
    (Error w1 "Internal Server Error" StatusInternalServerError,
      ["Error rendering template " ++ tmpl ++ ": " ++ err.Error])

/-! ## Requests and handlers (main.go, lines 52-103) -/

/-- The part of `*http.Request` the server can look at: the method, the host
the mux sees (without its port), the decoded URL path, the query, the headers
and the body. -/
structure Request where
  Method : String := "GET"
  Host : String := ""
  Path : String
  RawQuery : String := ""
  Header : List (String × String) := []
  Body : String := ""
deriving DecidableEq, Repr

/-- The one call `renderTemplate(w, tmpl, data)` a handler of `main.go` ends
with: the template name and the data record it passes. -/
structure Render where
  tmpl : String
  data : TemplateData
deriving DecidableEq, Repr

/-- main.go, lines 52-55. -/
def homeHandler (_r : Request) : Render :=
  let data : TemplateData := { PageTitle := "Andre Kuzma - GoLang Portfolio" }
  Render.mk "index.html" data

/-- main.go, lines 57-60. -/
def aboutHandler (_r : Request) : Render :=
  let data : TemplateData := { PageTitle := "About Me" }
  Render.mk "about.html" data

/-- main.go, lines 62-73. -/
def projectsHandler (_r : Request) : Render :=
  let projects : List Project := [
    { Name := "GDPR Data Discovery",
      Description := "Intelligent tool for discovering and cataloging PII/SPI data.",
      DemoURL := "/demo/data-discovery",
      RepoURL := "https://github.com/Kuzma-Dev/go-gdpr-data-discovery-service" },
    { Name := "Synthetic Data Generator",
      Description := "Tool for generating synthetic data for testing.",
      DemoURL := "/demo/synthetic-data",
      RepoURL := "https://github.com/Kuzma-Dev/go-gdpr-synthetic-data-generator-service" },
    { Name := "GDPR Consent Manager",
      Description := "Manage user consents for GDPR compliance.",
      DemoURL := "/demo/consent-manager",
      RepoURL := "https://github.com/Kuzma-Dev/go-gdpr-consent-manager-service" },
    { Name := "GDPR Risk Assessment",
      Description := "Tool for assessing data re-identification risk.",
      DemoURL := "/demo/risk-assessment",
      RepoURL := "https://github.com/Kuzma-Dev/go-gdpr-risk-assessment-service" }]
  let data : TemplateData := { PageTitle := "My Projects", Projects := projects }
  Render.mk "projects.html" data

/-- main.go, lines 75-82. -/
def blogHandler (_r : Request) : Render :=
  let blogPosts : List BlogPost := [
    { Title := "Welcome to my GoLang blog!",
      Content := "First post about my GoLang portfolio.",
      Slug := "welcome-to-golang-blog" }]
  let data : TemplateData := { PageTitle := "My Blog", BlogPosts := blogPosts }
  Render.mk "blog.html" data

/-- main.go, lines 85-88. -/
def demoPIIDiscoveryHandler (_r : Request) : Render :=
  let data : TemplateData := { PageTitle := "Demo: PII Discovery" }
  Render.mk "demo_pii_discovery.html" data

/-- main.go, lines 90-93. -/
def demoSyntheticDataHandler (_r : Request) : Render :=
  let data : TemplateData := { PageTitle := "Demo: Synthetic Data Generator" }
  Render.mk "demo_synthetic_data.html" data

/-- main.go, lines 95-98. -/
def demoConsentManagerHandler (_r : Request) : Render :=
  let data : TemplateData := { PageTitle := "Demo: Consent Manager" }
  Render.mk "demo_consent_manager.html" data

/-- main.go, lines 100-103. -/
def demoRiskAssessmentHandler (_r : Request) : Render :=
  let data : TemplateData := { PageTitle := "Demo: Risk Assessment" }
  Render.mk "demo_risk_assessment.html" data

/-- Go `url.URL`, as far as a redirect names one. -/
structure URL where
  Path : String
  RawQuery : String
deriving DecidableEq, Repr

/-- The `http.Handler` values that occur in the program: a handler function
of `main.go`, `http.StripPrefix`, `http.FileServer`, and the two handlers the
mux itself answers with. -/
inductive Handler where
  | HandlerFunc (f : Request → Render)
  | StripPrefix (pfx : String) (h : Handler)
  | FileServer (root : String)
  | NotFoundHandler
  | RedirectHandler (url : URL) (code : Nat)

/-- What the program takes from its surroundings: the template files on
disk and how they compile, the library's file server and redirect reply, and
whether the listener can be bound (`none`: bound, serving). -/
structure Env where
  ReadFile : String → Except String String
  Parse : String → String → Except String Template
  FileServer : String → ResponseWriter → Request → ResponseWriter
  Redirect : URL → Nat → ResponseWriter → Request → ResponseWriter
  ListenAndServe : String → Option String

/-- Go `http.NotFound`. -/
def NotFound (w : ResponseWriter) : ResponseWriter :=
  Error w "404 page not found" StatusNotFound

/-- `h.ServeHTTP(w, r)`: the writer after the handler has run and the lines
it logged.  `templates` is the package variable of main.go, read by
`renderTemplate`. -/
def Handler.ServeHTTP (env : Env) (templates : TemplateSet) :
    Handler → ResponseWriter → Request → ResponseWriter × List String
  | Handler.HandlerFunc f, w, r =>
    let call := f r
    renderTemplate templates w call.tmpl call.data
  | Handler.StripPrefix pfx h, w, r =>
    if pfx = "" then h.ServeHTTP env templates w r
    else
      let p := TrimPrefix r.Path pfx
      if len p < len r.Path then h.ServeHTTP env templates w { r with Path := p }
      else (NotFound w, [])
  | Handler.FileServer root, w, r => (env.FileServer root w r, [])
  | Handler.NotFoundHandler, w, _ => (NotFound w, [])
  | Handler.RedirectHandler url code, w, r => (env.Redirect url code w r, [])

/-! ## The request multiplexer (`net/http.ServeMux`)

The algorithm is the one of the classic mux (before Go 1.22): it routes on
the decoded path and redirects with status 301.  The mux of Go 1.22 and later
routes on the escaped path, segment by segment, and its redirects may carry
another status, so the two differ on percent-encoded and on redirected paths.
They select the same entry for a plain canonical path, and the properties
below rest on such paths only. -/

/-- Go `muxEntry`. -/
structure muxEntry where
  h : Handler
  pattern : String

/-- Go `ServeMux`: the map from pattern to entry, the entries whose pattern
ends in a slash sorted from longest to shortest, and whether some pattern
names a host. -/
structure ServeMux where
  m : List (String × muxEntry) := []
  es : List muxEntry := []
  hosts : Bool := false

/-- Go `appendSorted`: insert before the first entry with a shorter pattern. -/
def appendSorted : List muxEntry → muxEntry → List muxEntry
  | [], e => [e]
  | x :: xs, e =>
    if len x.pattern < len e.pattern then e :: x :: xs else x :: appendSorted xs e

namespace ServeMux

/-- Go `(*ServeMux).Handle`; an error is the panic message. -/
def Handle (mux : ServeMux) (pattern : String) (handler : Handler) :
    Except String ServeMux :=
  if pattern = "" then Except.error "http: invalid pattern"
  else if (mux.m.lookup pattern).isSome then
    Except.error ("http: multiple registrations for " ++ pattern)
  else
    let e : muxEntry := { h := handler, pattern := pattern }
    let es := if pattern.data.getLast? = some '/' then appendSorted mux.es e else mux.es
    let hosts := if pattern.data.head? = some '/' then mux.hosts else true
    Except.ok { m := (pattern, e) :: mux.m, es := es, hosts := hosts }

/-- Go `(*ServeMux).HandleFunc`. -/
def HandleFunc (mux : ServeMux) (pattern : String) (handler : Request → Render) :
    Except String ServeMux :=
  mux.Handle pattern (Handler.HandlerFunc handler)

/-- Go `(*ServeMux).match`: an exact match first, then the longest pattern
ending in a slash that is a prefix of the path. -/
def matchPattern (mux : ServeMux) (path : String) : Option muxEntry :=
  match mux.m.lookup path with
  | some v => some v
  | none => mux.es.find? (fun e => HasPrefix path e.pattern)

/-- Go `(*ServeMux).handler`: host-specific patterns take precedence; no
match gives the not-found handler. -/
def handler (mux : ServeMux) (host path : String) : Handler × String :=
  let byHost := if mux.hosts then mux.matchPattern (host ++ path) else none
  let found :=
    match byHost with
    | some e => some e
    | none => mux.matchPattern path
  match found with
  | some e => (e.h, e.pattern)
  | none => (Handler.NotFoundHandler, "")

/-- Go `(*ServeMux).shouldRedirectRLocked`: the path is not registered but
the path with a slash appended is. -/
def shouldRedirectRLocked (mux : ServeMux) (host path : String) : Bool :=
  let p := [path, host ++ path]
  if p.any (fun c => (mux.m.lookup c).isSome) then false
  else if len path = 0 then false
  else if p.any (fun c => (mux.m.lookup (c ++ "/")).isSome) then
    path.data.getLast? != some '/'
  else false

/-- Go `(*ServeMux).Handler`: the handler for a request and the pattern that
selected it.  A path that is not canonical, or that only matches with a
slash appended, is answered with a redirect. -/
def Handler (mux : ServeMux) (r : Request) : Portfolio.Handler × String :=
  if r.Method = "CONNECT" then
    if mux.shouldRedirectRLocked r.Host r.Path then
      (Handler.RedirectHandler { Path := r.Path ++ "/", RawQuery := r.RawQuery }
        StatusMovedPermanently, r.Path ++ "/")
    else mux.handler r.Host r.Path
  else
    let path := cleanPath r.Path
    if mux.shouldRedirectRLocked r.Host path then
      (Handler.RedirectHandler { Path := path ++ "/", RawQuery := r.RawQuery }
        StatusMovedPermanently, path ++ "/")
    else if path ≠ r.Path then
      (Handler.RedirectHandler { Path := path, RawQuery := r.RawQuery }
        StatusMovedPermanently, (mux.handler r.Host path).2)
    else mux.handler r.Host r.Path

/-- Go `(*ServeMux).ServeHTTP` for a request with a path as its target. -/
def ServeHTTP (env : Env) (templates : TemplateSet) (mux : ServeMux)
    (w : ResponseWriter) (r : Request) : ResponseWriter × List String :=
  (mux.Handler r).1.ServeHTTP env templates w r

end ServeMux

/-! ## Start-up (main.go, lines 33-42 and 105-124) -/

/-- The loop of Go `template.parseFiles`: each file is read and parsed under
its base name; the first error ends the loop. -/
def parseFiles (env : Env) : TemplateSet → List String → Except String TemplateSet
  | t, [] => Except.ok t
  | t, filename :: rest =>
    match env.ReadFile filename with
    | Except.error e => Except.error e
    | Except.ok s =>
      match env.Parse (Base filename) s with
      | Except.error e => Except.error e
      | Except.ok tmpl => parseFiles env ((Base filename, tmpl) :: t) rest

/-- Go `template.ParseFiles`. -/
def ParseFiles (env : Env) (filenames : List String) : Except String TemplateSet :=
  if filenames = [] then
    Except.error "html/template: no files named in call to ParseFiles"
  else parseFiles env [] filenames

/-- Go `template.Must`: an error becomes a panic with that error. -/
def Must (r : Except String TemplateSet) : Except String TemplateSet :=
  r

/-- The file names of main.go, lines 34-41. -/
def templateFiles : List String :=
  [Join "templates" "index.html",
   Join "templates" "about.html",
   Join "templates" "projects.html",
   Join "templates" "blog.html",
   Join "templates" "demo_pii_discovery.html",
   Join "templates" "demo_synthetic_data.html",
   Join "templates" "demo_consent_manager.html",
   Join "templates" "demo_risk_assessment.html"]

/-- The package variable `templates` (main.go, lines 33-42); an error is the
panic of `template.Must` during package initialisation. -/
def templates (env : Env) : Except String TemplateSet :=
  Must (ParseFiles env templateFiles)

/-- The registrations of `main` (main.go, lines 107-120) on a mux; an error
is the panic of a failed registration. -/
def registerRoutes (mux : ServeMux) : Except String ServeMux := do
  let fs := Handler.FileServer "static"
  let mux ← mux.Handle "/static/" (Handler.StripPrefix "/static/" fs)
  let mux ← mux.HandleFunc "/" homeHandler
  let mux ← mux.HandleFunc "/about" aboutHandler
  let mux ← mux.HandleFunc "/projects" projectsHandler
  let mux ← mux.HandleFunc "/blog" blogHandler
  let mux ← mux.HandleFunc "/demo/data-discovery" demoPIIDiscoveryHandler
  let mux ← mux.HandleFunc "/demo/synthetic-data" demoSyntheticDataHandler
  let mux ← mux.HandleFunc "/demo/consent-manager" demoConsentManagerHandler
  let mux ← mux.HandleFunc "/demo/risk-assessment" demoRiskAssessmentHandler
  pure mux

/-- The process: the package variable `templates`, the default mux, the log,
the address of the bound listener, and the message the process died with. -/
structure Process where
  templates : TemplateSet := []
  mux : ServeMux := {}
  log : List String := []
  listener : Option String := none
  exit : Option String := none

/-- main.go, lines 105-124. -/
def main (env : Env) (p : Process) : Process :=
  match registerRoutes p.mux with
  | Except.error e => { p with exit := some e }
  | Except.ok mux =>
    let p1 : Process :=
      { p with mux := mux,
               log := p.log ++ ["GoLang Portfolio running on http://0.0.0.0:8080"] }
    match env.ListenAndServe "0.0.0.0:8080" with
    | some err => { p1 with log := p1.log ++ [err], exit := some err }
    | none => { p1 with listener := some "0.0.0.0:8080" }

/-- Program start: package initialisation evaluates `templates`; a panic
there ends the process before `main` is entered. -/
def run (env : Env) : Process :=
  match templates env with
  | Except.error e => { exit := some e }
  | Except.ok t => main env { templates := t }

/-- The default mux once `main` has registered its routes. -/
def portfolioMux : ServeMux :=
  match registerRoutes {} with
  | Except.ok mux => mux
  | Except.error _ => {}

/-- What reaches the client of what the handler wrote: in reply to a HEAD
request the server sends the status line and the headers and discards the
body writes. -/
def sent (r : Request) (w : ResponseWriter) : ResponseWriter :=
  if r.Method = "HEAD" then { w with body := "" } else w

/-- One request served by the process: a fresh response writer, the mux,
the server finishing the response, and the body dropped for a HEAD request.
Only the log changes. -/
def serve (env : Env) (p : Process) (r : Request) : ResponseWriter × Process :=
  let out := p.mux.ServeHTTP env p.templates {} r
  (sent r out.1.finishRequest, { p with log := p.log ++ out.2 })

/-- The eight route patterns `main` binds to a handler function. -/
def definedRoutes : List String :=
  ["/", "/about", "/projects", "/blog", "/demo/data-discovery",
   "/demo/synthetic-data", "/demo/consent-manager", "/demo/risk-assessment"]

/-- The render call of the handler function bound to a pattern, if the
pattern is bound to one. -/
def boundRender (mux : ServeMux) (pattern : String) (r : Request) : Option Render :=
  match mux.m.lookup pattern with
  | some { h := Handler.HandlerFunc f, .. } => some (f r)
  | _ => none

/-- The render call of the handler the mux dispatches a request to, if it is
a handler function. -/
def dispatchedRender (mux : ServeMux) (r : Request) : Option Render :=
  match (mux.Handler r).1 with
  | Handler.HandlerFunc f => some (f r)
  | _ => none

/-- The page title each route's handler puts into its data (main.go, lines
53, 58, 71, 80, 86, 91, 96 and 101). -/
def pageTitles : List (String × String) :=
  [("/", "Andre Kuzma - GoLang Portfolio"),
   ("/about", "About Me"),
   ("/projects", "My Projects"),
   ("/blog", "My Blog"),
   ("/demo/data-discovery", "Demo: PII Discovery"),
   ("/demo/synthetic-data", "Demo: Synthetic Data Generator"),
   ("/demo/consent-manager", "Demo: Consent Manager"),
   ("/demo/risk-assessment", "Demo: Risk Assessment")]

/-! ## Sample surroundings, used to run the program on concrete inputs -/

/-- A template that prints the page title inside a heading. -/
def titlePage : Template :=
  fun d => { writes := ["<h1>", d.PageTitle, "</h1>"], err := none }

/-- A template that writes its opening tag and then fails on a field the
data record does not have. -/
def brokenPage : Template :=
  fun _ => { writes := ["<h1>"],
             err := some "template: index.html:1:6: executing index.html: no field Heading" }

/-- A redirect reply reduced to its status line and `Location` header. -/
def plainRedirect (url : URL) (code : Nat) (w : ResponseWriter) (_r : Request) :
    ResponseWriter :=
  (w.Set "Location" url.Path).WriteHeader code

/-- All template files present and well formed, no static files, the port free. -/
def sampleEnv : Env :=
  { ReadFile := fun _ => Except.ok "page",
    Parse := fun _ _ => Except.ok titlePage,
    FileServer := fun _ w _ => NotFound w,
    Redirect := plainRedirect,
    ListenAndServe := fun _ => none }

/-- As `sampleEnv`, with an `index.html` that fails after its first write. -/
def brokenEnv : Env :=
  { sampleEnv with
    Parse := fun name _ =>
      if name = "index.html" then Except.ok brokenPage else Except.ok titlePage }

/-- As `sampleEnv`, with `templates/blog.html` removed. -/
def missingEnv : Env :=
  { sampleEnv with
    ReadFile := fun f =>
      if f = "templates/blog.html" then
        Except.error "open templates/blog.html: no such file or directory"
      else Except.ok "page" }

/-! ## The route table -/

theorem registerRoutes_ok : registerRoutes {} = Except.ok portfolioMux :=
  rfl

theorem portfolioMux_hosts : portfolioMux.hosts = false :=
  rfl

theorem portfolioMux_m :
    portfolioMux.m =
      [("/demo/risk-assessment",
          { h := Handler.HandlerFunc demoRiskAssessmentHandler, pattern := "/demo/risk-assessment" }),
       ("/demo/consent-manager",
          { h := Handler.HandlerFunc demoConsentManagerHandler, pattern := "/demo/consent-manager" }),
       ("/demo/synthetic-data",
          { h := Handler.HandlerFunc demoSyntheticDataHandler, pattern := "/demo/synthetic-data" }),
       ("/demo/data-discovery",
          { h := Handler.HandlerFunc demoPIIDiscoveryHandler, pattern := "/demo/data-discovery" }),
       ("/blog", { h := Handler.HandlerFunc blogHandler, pattern := "/blog" }),
       ("/projects", { h := Handler.HandlerFunc projectsHandler, pattern := "/projects" }),
       ("/about", { h := Handler.HandlerFunc aboutHandler, pattern := "/about" }),
       ("/", { h := Handler.HandlerFunc homeHandler, pattern := "/" }),
       ("/static/",
          { h := Handler.StripPrefix "/static/" (Handler.FileServer "static"),
            pattern := "/static/" })] :=
  rfl

theorem portfolioMux_es :
    portfolioMux.es =
      [{ h := Handler.StripPrefix "/static/" (Handler.FileServer "static"),
         pattern := "/static/" },
       { h := Handler.HandlerFunc homeHandler, pattern := "/" }] :=
  rfl

/-- Which handler function a pattern is bound to: the eight routes and no other. -/
theorem boundRender_cases (pattern : String) (r : Request) (c : Render)
    (h : boundRender portfolioMux pattern r = some c) :
    (pattern, c) ∈
      [("/", homeHandler r), ("/about", aboutHandler r), ("/projects", projectsHandler r),
       ("/blog", blogHandler r), ("/demo/data-discovery", demoPIIDiscoveryHandler r),
       ("/demo/synthetic-data", demoSyntheticDataHandler r),
       ("/demo/consent-manager", demoConsentManagerHandler r),
       ("/demo/risk-assessment", demoRiskAssessmentHandler r)] := by
  unfold boundRender at h
  rw [portfolioMux_m] at h
  simp only [List.lookup] at h
  by_cases h1 : pattern = "/demo/risk-assessment"
  · subst h1; simp at h; simp [← h]
  by_cases h2 : pattern = "/demo/consent-manager"
  · subst h2; simp at h; simp [← h]
  by_cases h3 : pattern = "/demo/synthetic-data"
  · subst h3; simp at h; simp [← h]
  by_cases h4 : pattern = "/demo/data-discovery"
  · subst h4; simp at h; simp [← h]
  by_cases h5 : pattern = "/blog"
  · subst h5; simp at h; simp [← h]
  by_cases h6 : pattern = "/projects"
  · subst h6; simp at h; simp [← h]
  by_cases h7 : pattern = "/about"
  · subst h7; simp at h; simp [← h]
  by_cases h8 : pattern = "/"
  · subst h8; simp at h; simp [← h]
  by_cases h9 : pattern = "/static/"
  · subst h9; simp at h
  · have e1 : (pattern == "/demo/risk-assessment") = false := by simpa using h1
    have e2 : (pattern == "/demo/consent-manager") = false := by simpa using h2
    have e3 : (pattern == "/demo/synthetic-data") = false := by simpa using h3
    have e4 : (pattern == "/demo/data-discovery") = false := by simpa using h4
    have e5 : (pattern == "/blog") = false := by simpa using h5
    have e6 : (pattern == "/projects") = false := by simpa using h6
    have e7 : (pattern == "/about") = false := by simpa using h7
    have e8 : (pattern == "/") = false := by simpa using h8
    have e9 : (pattern == "/static/") = false := by simpa using h9
    rw [e1, e2, e3, e4, e5, e6, e7, e8, e9] at h
    simp at h

theorem boundRender_defined (r : Request) :
    definedRoutes.map (fun p => boundRender portfolioMux p r) =
      [some (homeHandler r), some (aboutHandler r), some (projectsHandler r),
       some (blogHandler r), some (demoPIIDiscoveryHandler r),
       some (demoSyntheticDataHandler r), some (demoConsentManagerHandler r),
       some (demoRiskAssessmentHandler r)] :=
  rfl

/-- C5: the handler bound to `/projects` hands the template `projects.html`
a list of exactly four projects, in the fixed order GDPR Data Discovery,
Synthetic Data Generator, GDPR Consent Manager, GDPR Risk Assessment, each
with its own demo link and its own repository URL (the four URLs are pairwise
distinct), and every request gets the same list. -/
theorem C5_projects_fixed_list (r : Request) :
    boundRender portfolioMux "/projects" r = some (projectsHandler r) ∧
    (projectsHandler r).tmpl = "projects.html" ∧
    (projectsHandler r).data.Projects.length = 4 ∧
    (projectsHandler r).data.Projects.map (fun p => (p.Name, p.DemoURL, p.RepoURL)) =
      [("GDPR Data Discovery", "/demo/data-discovery",
          "https://github.com/Kuzma-Dev/go-gdpr-data-discovery-service"),
       ("Synthetic Data Generator", "/demo/synthetic-data",
          "https://github.com/Kuzma-Dev/go-gdpr-synthetic-data-generator-service"),
       ("GDPR Consent Manager", "/demo/consent-manager",
          "https://github.com/Kuzma-Dev/go-gdpr-consent-manager-service"),
       ("GDPR Risk Assessment", "/demo/risk-assessment",
          "https://github.com/Kuzma-Dev/go-gdpr-risk-assessment-service")] ∧
    ((projectsHandler r).data.Projects.map (fun p => p.RepoURL)).Nodup ∧
    ∀ r2 : Request, projectsHandler r2 = projectsHandler r := by
  refine ⟨rfl, rfl, rfl, rfl, ?_, fun _ => rfl⟩
  simp only [projectsHandler, List.map]
  decide

/-- C6: the data of the handler bound to `/blog` holds exactly one blog post,
with title "Welcome to my GoLang blog!" and slug "welcome-to-golang-blog";
the data of every handler function bound to another pattern holds no blog
post. -/
theorem C6_single_blog_post (r : Request) :
    (boundRender portfolioMux "/blog" r).map
        (fun c => c.data.BlogPosts.map (fun b => (b.Title, b.Slug))) =
      some [("Welcome to my GoLang blog!", "welcome-to-golang-blog")] ∧
    ∀ (pattern : String) (c : Render), pattern ≠ "/blog" →
      boundRender portfolioMux pattern r = some c → c.data.BlogPosts = [] := by
  refine ⟨rfl, ?_⟩
  intro pattern c hne hb
  have hm := boundRender_cases pattern r c hb
  simp only [List.mem_cons, Prod.mk.injEq, List.mem_nil_iff, or_false] at hm
  rcases hm with h | h | h | h | h | h | h | h
  all_goals first
    | exact absurd h.1 hne
    | (rw [h.2]; rfl)

/-- C10: every DemoURL of the project list is one of the registered route
patterns and is bound to a handler function, the four DemoURLs are pairwise
distinct, and every registered pattern under `/demo/` is the DemoURL of a
project. -/
theorem C10_demo_links_are_routes (r : Request) :
    (∀ u ∈ (projectsHandler r).data.Projects.map (fun p => p.DemoURL),
        u ∈ definedRoutes ∧ (boundRender portfolioMux u r).isSome = true) ∧
    ((projectsHandler r).data.Projects.map (fun p => p.DemoURL)).Nodup ∧
    ((projectsHandler r).data.Projects.map (fun p => p.DemoURL)).length = 4 ∧
    ∀ p ∈ portfolioMux.m.map (fun kv => kv.1), HasPrefix p "/demo/" = true →
      p ∈ (projectsHandler r).data.Projects.map (fun p => p.DemoURL) := by
  refine ⟨?_, ?_, rfl, ?_⟩
  · intro u hu
    simp only [projectsHandler, List.map, List.mem_cons, List.mem_nil_iff, or_false] at hu
    rcases hu with h | h | h | h <;> subst h <;> exact ⟨by decide, rfl⟩
  · simp only [projectsHandler, List.map]
    decide
  · rw [portfolioMux_m]
    simp only [projectsHandler, List.map]
    decide

/-- C3, counterexample: the handler bound to `/` renders the template named
`index.html`, not `index`, and the handler bound to `/about` does not render
`about`. -/
theorem C3_home_template_name_is_file_name :
    (boundRender portfolioMux "/" { Path := "/" }).map (fun c => c.tmpl) = some "index.html" ∧
    (boundRender portfolioMux "/" { Path := "/" }).map (fun c => c.tmpl) ≠ some "index" ∧
    (boundRender portfolioMux "/about" { Path := "/about" }).map (fun c => c.tmpl) ≠
      some "about" := by
  decide

/-- C3, amended: whatever the request, the eight routes render, in the order
`/`, `/about`, `/projects`, `/blog`, `/demo/data-discovery`,
`/demo/synthetic-data`, `/demo/consent-manager`, `/demo/risk-assessment`, the
templates `index.html`, `about.html`, `projects.html`, `blog.html`,
`demo_pii_discovery.html`, `demo_synthetic_data.html`,
`demo_consent_manager.html`, `demo_risk_assessment.html`; no two routes share
a template, and no other pattern is bound to a handler function. -/
theorem C3_route_templates (r : Request) :
    definedRoutes.map (fun p => (boundRender portfolioMux p r).map (fun c => c.tmpl)) =
      [some "index.html", some "about.html", some "projects.html", some "blog.html",
       some "demo_pii_discovery.html", some "demo_synthetic_data.html",
       some "demo_consent_manager.html", some "demo_risk_assessment.html"] ∧
    (definedRoutes.map
      (fun p => (boundRender portfolioMux p r).map (fun c => c.tmpl))).Nodup ∧
    ∀ pattern : String, pattern ∉ definedRoutes → boundRender portfolioMux pattern r = none := by
  refine ⟨rfl, ?_, ?_⟩
  · have h : definedRoutes.map
          (fun p => (boundRender portfolioMux p r).map (fun c => c.tmpl)) =
        [some "index.html", some "about.html", some "projects.html", some "blog.html",
         some "demo_pii_discovery.html", some "demo_synthetic_data.html",
         some "demo_consent_manager.html", some "demo_risk_assessment.html"] := rfl
    rw [h]
    decide
  · intro pattern hp
    cases hb : boundRender portfolioMux pattern r with
    | none => rfl
    | some c =>
      exfalso
      apply hp
      have hm := boundRender_cases pattern r c hb
      simp only [List.mem_cons, Prod.mk.injEq, List.mem_nil_iff, or_false] at hm
      rcases hm with h | h | h | h | h | h | h | h <;> rw [h.1] <;> decide

/-- C1, counterexample: `/nope` and `/about/` are none of the eight routes
and not under `/static/`, yet the mux selects them by the pattern `/` and
dispatches `homeHandler`; on a started server `GET /nope` is answered with
status 200 and the rendered home page, not with a 404. -/
theorem C1_unknown_path_renders_home :
    "/nope" ∉ definedRoutes ∧ HasPrefix "/nope" "/static/" = false ∧
    "/about/" ∉ definedRoutes ∧ HasPrefix "/about/" "/static/" = false ∧
    (portfolioMux.Handler { Path := "/nope" }).2 = "/" ∧
    dispatchedRender portfolioMux { Path := "/nope" } = some (homeHandler { Path := "/nope" }) ∧
    dispatchedRender portfolioMux { Path := "/about/" } =
      some (homeHandler { Path := "/about/" }) ∧
    (run sampleEnv).listener = some "0.0.0.0:8080" ∧
    (serve sampleEnv (run sampleEnv) { Path := "/nope" }).1.status = 200 ∧
    (serve sampleEnv (run sampleEnv) { Path := "/nope" }).1.body =
      "<h1>Andre Kuzma - GoLang Portfolio</h1>" := by
  decide

/-- C2, the code at the failing input: `index.html` writes its opening tag
and then fails.  `renderTemplate` gets the error, yet the response has status
200 and the body is the partial output followed by the error text. -/
theorem C2_error_after_first_write :
    (run brokenEnv).listener = some "0.0.0.0:8080" ∧
    (ExecuteTemplate (run brokenEnv).templates {} "index.html"
        (homeHandler { Path := "/" }).data).2 =
      some (ExecError.failed
        "template: index.html:1:6: executing index.html: no field Heading") ∧
    (renderTemplate (run brokenEnv).templates {} "index.html"
        (homeHandler { Path := "/" }).data).1.status = 200 ∧
    (renderTemplate (run brokenEnv).templates {} "index.html"
        (homeHandler { Path := "/" }).data).1.body = "<h1>Internal Server Error\n" ∧
    (serve brokenEnv (run brokenEnv) { Path := "/" }).1.status = 200 ∧
    (serve brokenEnv (run brokenEnv) { Path := "/" }).1.body = "<h1>Internal Server Error\n" := by
  decide

/-! ## Dispatch -/

theorem shouldRedirect_of_registered (mux : ServeMux) (host path : String)
    (h : (mux.m.lookup path).isSome = true) :
    mux.shouldRedirectRLocked host path = false := by
  simp [ServeMux.shouldRedirectRLocked, h]

/-- A canonical path that is registered as it stands is served by its own entry. -/
theorem Handler_of_exact (mux : ServeMux) (r : Request) (e : muxEntry)
    (hhosts : mux.hosts = false) (hl : mux.m.lookup r.Path = some e)
    (hclean : cleanPath r.Path = r.Path) :
    mux.Handler r = (e.h, e.pattern) := by
  have hr : mux.shouldRedirectRLocked r.Host r.Path = false :=
    shouldRedirect_of_registered _ _ _ (by simp [hl])
  have hh : mux.handler r.Host r.Path = (e.h, e.pattern) := by
    simp [ServeMux.handler, hhosts, ServeMux.matchPattern, hl]
  unfold ServeMux.Handler
  by_cases hm : r.Method = "CONNECT"
  · simp [hm, hr, hh]
  · simp [hm, hclean, hr, hh]

/-- Each defined route is registered under its own pattern, is canonical, and
its handler function does not look at the request. -/
theorem route_entry (path : String) (h : path ∈ definedRoutes) :
    ∃ f : Request → Render,
      portfolioMux.m.lookup path = some { h := Handler.HandlerFunc f, pattern := path } ∧
      cleanPath path = path ∧ ∀ r1 r2 : Request, f r1 = f r2 := by
  simp only [definedRoutes, List.mem_cons, List.mem_nil_iff, or_false] at h
  rcases h with h | h | h | h | h | h | h | h <;> subst h
  · exact ⟨homeHandler, rfl, by decide, fun _ _ => rfl⟩
  · exact ⟨aboutHandler, rfl, by decide, fun _ _ => rfl⟩
  · exact ⟨projectsHandler, rfl, by decide, fun _ _ => rfl⟩
  · exact ⟨blogHandler, rfl, by decide, fun _ _ => rfl⟩
  · exact ⟨demoPIIDiscoveryHandler, rfl, by decide, fun _ _ => rfl⟩
  · exact ⟨demoSyntheticDataHandler, rfl, by decide, fun _ _ => rfl⟩
  · exact ⟨demoConsentManagerHandler, rfl, by decide, fun _ _ => rfl⟩
  · exact ⟨demoRiskAssessmentHandler, rfl, by decide, fun _ _ => rfl⟩

theorem Handler_defined (r : Request) (h : r.Path ∈ definedRoutes) :
    ∃ f : Request → Render,
      portfolioMux.Handler r = (Handler.HandlerFunc f, r.Path) ∧
      boundRender portfolioMux r.Path r = some (f r) ∧ ∀ r1 r2 : Request, f r1 = f r2 := by
  obtain ⟨f, hl, hc, hf⟩ := route_entry r.Path h
  refine ⟨f, ?_, ?_, hf⟩
  · exact Handler_of_exact portfolioMux r _ portfolioMux_hosts hl hc
  · simp [boundRender, hl]

theorem mem_keys_of_lookup {β : Type} (k : String) (l : List (String × β)) (v : β)
    (h : l.lookup k = some v) : k ∈ l.map Prod.fst := by
  induction l with
  | nil => simp at h
  | cons a t ih =>
    obtain ⟨a1, a2⟩ := a
    simp only [List.lookup] at h
    by_cases hk : k = a1
    · simp [hk]
    · have hb : (k == a1) = false := by simpa using hk
      rw [hb] at h
      simp [ih h]

theorem portfolioMux_keys :
    portfolioMux.m.map Prod.fst =
      ["/demo/risk-assessment", "/demo/consent-manager", "/demo/synthetic-data",
       "/demo/data-discovery", "/blog", "/projects", "/about", "/", "/static/"] :=
  rfl

theorem lookup_none_of_unregistered (path : String) (hroutes : path ∉ definedRoutes)
    (hstatic : path ≠ "/static/") : portfolioMux.m.lookup path = none := by
  cases hl : portfolioMux.m.lookup path with
  | none => rfl
  | some e =>
    exfalso
    have hm := mem_keys_of_lookup path _ e hl
    rw [portfolioMux_keys] at hm
    simp only [List.mem_cons, List.mem_nil_iff, or_false] at hm
    simp only [definedRoutes, List.mem_cons, List.mem_nil_iff, or_false, not_or] at hroutes
    obtain ⟨n1, n2, n3, n4, n5, n6, n7, n8⟩ := hroutes
    rcases hm with h | h | h | h | h | h | h | h | h
    · exact n8 h
    · exact n7 h
    · exact n6 h
    · exact n5 h
    · exact n4 h
    · exact n3 h
    · exact n2 h
    · exact n1 h
    · exact hstatic h

theorem append_slash_last (c : String) : (c ++ "/").data.getLast? = some '/' := by
  rw [String.data_append]
  have h : "/".data = ['/'] := rfl
  rw [h]
  simp

/-- The only registered patterns of the form `c/` are `/` and `/static/`. -/
theorem lookup_slash (c : String) (h : (portfolioMux.m.lookup (c ++ "/")).isSome = true) :
    c = "" ∨ c = "/static" := by
  cases hl : portfolioMux.m.lookup (c ++ "/") with
  | none => simp [hl] at h
  | some e =>
    have hm := mem_keys_of_lookup _ _ e hl
    rw [portfolioMux_keys] at hm
    have hlast := append_slash_last c
    simp only [List.mem_cons, List.mem_nil_iff, or_false] at hm
    rcases hm with h | h | h | h | h | h | h | h | h
    · rw [h] at hlast; exact absurd hlast (by decide)
    · rw [h] at hlast; exact absurd hlast (by decide)
    · rw [h] at hlast; exact absurd hlast (by decide)
    · rw [h] at hlast; exact absurd hlast (by decide)
    · rw [h] at hlast; exact absurd hlast (by decide)
    · rw [h] at hlast; exact absurd hlast (by decide)
    · rw [h] at hlast; exact absurd hlast (by decide)
    · left
      have hd := congrArg String.data h
      rw [String.data_append] at hd
      have e1 : "/".data = ['/'] := rfl
      rw [e1] at hd
      have : c.data = [] := by simpa using hd
      exact String.ext this
    · right
      have hd := congrArg String.data h
      rw [String.data_append] at hd
      have e1 : "/".data = ['/'] := rfl
      have e2 : "/static/".data = "/static".data ++ ['/'] := rfl
      rw [e1, e2] at hd
      exact String.ext (List.append_cancel_right hd)

theorem rooted_data (path : String) (hroot : HasPrefix path "/" = true) :
    ∃ rest, path.data = '/' :: rest := by
  unfold HasPrefix at hroot
  have e1 : "/".data = ['/'] := rfl
  rw [e1] at hroot
  cases hp : path.data with
  | nil => rw [hp] at hroot; simp at hroot
  | cons a t =>
    rw [hp] at hroot
    simp at hroot
    exact ⟨t, by rw [hroot]⟩

theorem host_static (host path : String) (hroot : HasPrefix path "/" = true)
    (h : host ++ path = "/static") : path = "/static" := by
  obtain ⟨rest, hrest⟩ := rooted_data path hroot
  have hd := congrArg String.data h
  rw [String.data_append, hrest] at hd
  cases hh : host.data with
  | nil =>
    have : host = "" := String.ext hh
    rw [this] at h
    simpa using h
  | cons a t =>
    exfalso
    rw [hh] at hd
    have e : "/static".data = '/' :: "static".data := rfl
    rw [e] at hd
    simp only [List.cons_append, List.cons.injEq] at hd
    have hmem : '/' ∈ t ++ '/' :: rest := by simp
    rw [hd.2] at hmem
    revert hmem
    decide

/-- A rooted path that is neither registered nor `/static` triggers no
trailing-slash redirect. -/
theorem shouldRedirect_unregistered (host path : String)
    (hroot : HasPrefix path "/" = true) (hstatic : path ≠ "/static") :
    portfolioMux.shouldRedirectRLocked host path = false := by
  obtain ⟨rest, hrest⟩ := rooted_data path hroot
  have hne : path ≠ "" := by
    intro h
    rw [h] at hrest
    simp at hrest
  have h1 : (portfolioMux.m.lookup (path ++ "/")).isSome = false := by
    cases hs : (portfolioMux.m.lookup (path ++ "/")).isSome with
    | false => rfl
    | true =>
      rcases lookup_slash path hs with h | h
      · exact absurd h hne
      · exact absurd h hstatic
  have h2 : (portfolioMux.m.lookup (host ++ path ++ "/")).isSome = false := by
    cases hs : (portfolioMux.m.lookup (host ++ path ++ "/")).isSome with
    | false => rfl
    | true =>
      rcases lookup_slash (host ++ path) hs with h | h
      · exfalso
        have hd := congrArg String.data h
        rw [String.data_append, hrest] at hd
        simp at hd
      · exact absurd (host_static host path hroot h) hstatic
  unfold ServeMux.shouldRedirectRLocked
  simp [h1, h2]

theorem handler_unregistered (host path : String)
    (hroot : HasPrefix path "/" = true) (hroutes : path ∉ definedRoutes)
    (hstatic : HasPrefix path "/static/" = false) :
    portfolioMux.handler host path = (Handler.HandlerFunc homeHandler, "/") := by
  have hne : path ≠ "/static/" := by
    intro h
    rw [h] at hstatic
    revert hstatic
    decide
  have hl := lookup_none_of_unregistered path hroutes hne
  unfold ServeMux.handler ServeMux.matchPattern
  rw [portfolioMux_hosts, hl, portfolioMux_es]
  simp [List.find?, hstatic, hroot]

/-- C1, amended: a request whose path is rooted and canonical, is none of the
eight routes, is not `/static` and is not under `/static/`, is selected by the
catch-all pattern `/` and dispatched to `homeHandler`, which renders
`index.html` with the home page title; the response is the one `/` gets, never
the default 404. -/
theorem C1_unregistered_path_goes_home (r : Request)
    (hroot : HasPrefix r.Path "/" = true)
    (hcanon : r.Method ≠ "CONNECT" → cleanPath r.Path = r.Path)
    (hroutes : r.Path ∉ definedRoutes)
    (hstatic : r.Path ≠ "/static" ∧ HasPrefix r.Path "/static/" = false) :
    portfolioMux.Handler r = (Handler.HandlerFunc homeHandler, "/") ∧
    dispatchedRender portfolioMux r =
      some { tmpl := "index.html", data := { PageTitle := "Andre Kuzma - GoLang Portfolio" } } ∧
    ∀ (env : Env) (t : TemplateSet) (w : ResponseWriter),
      portfolioMux.ServeHTTP env t w r = portfolioMux.ServeHTTP env t w { r with Path := "/" } := by
  have hr := shouldRedirect_unregistered r.Host r.Path hroot hstatic.1
  have hh := handler_unregistered r.Host r.Path hroot hroutes hstatic.2
  have hH : portfolioMux.Handler r = (Handler.HandlerFunc homeHandler, "/") := by
    unfold ServeMux.Handler
    by_cases hm : r.Method = "CONNECT"
    · simp [hm, hr, hh]
    · simp [hm, hcanon hm, hr, hh]
  have hroot2 : portfolioMux.Handler { r with Path := "/" } =
      (Handler.HandlerFunc homeHandler, "/") :=
    Handler_of_exact portfolioMux { r with Path := "/" } _ portfolioMux_hosts rfl
      (show cleanPath "/" = "/" by decide)
  refine ⟨hH, ?_, ?_⟩
  · simp [dispatchedRender, hH, homeHandler]
  · intro env t w
    simp [ServeMux.ServeHTTP, hH, hroot2, Handler.ServeHTTP, homeHandler]

/-- C1, amended, at `GET /nope`. -/
theorem C1_unregistered_path_goes_home_witness :
    (HasPrefix "/nope" "/" = true ∧ "/nope" ∉ definedRoutes ∧
      ("/nope" ≠ "/static" ∧ HasPrefix "/nope" "/static/" = false)) ∧
    (portfolioMux.Handler { Path := "/nope" } = (Handler.HandlerFunc homeHandler, "/") ∧
     dispatchedRender portfolioMux { Path := "/nope" } =
      some { tmpl := "index.html", data := { PageTitle := "Andre Kuzma - GoLang Portfolio" } } ∧
     ∀ (env : Env) (t : TemplateSet) (w : ResponseWriter),
      portfolioMux.ServeHTTP env t w { Path := "/nope" } =
        portfolioMux.ServeHTTP env t w { ({ Path := "/nope" } : Request) with Path := "/" }) :=
  ⟨by decide,
   C1_unregistered_path_goes_home { Path := "/nope" } (by decide) (fun _ => by decide)
     (by decide) (by decide)⟩

/-! ## Responses -/

theorem Write_wroteHeader (w : ResponseWriter) (b : String) :
    (w.Write b).wroteHeader = true := by
  unfold ResponseWriter.Write ResponseWriter.WriteHeader
  cases h : w.wroteHeader <;> simp [h]

theorem Write_status (w : ResponseWriter) (b : String) :
    (w.Write b).status = if w.wroteHeader = true then w.status else StatusOK := by
  unfold ResponseWriter.Write ResponseWriter.WriteHeader
  cases h : w.wroteHeader <;> simp [h]

theorem Write_body (w : ResponseWriter) (b : String) : (w.Write b).body = w.body ++ b := by
  unfold ResponseWriter.Write ResponseWriter.WriteHeader
  cases h : w.wroteHeader <;> simp [h]

theorem foldl_Write_body (ws : List String) (w : ResponseWriter) :
    (ws.foldl ResponseWriter.Write w).body = ws.foldl (fun acc s => acc ++ s) w.body := by
  induction ws generalizing w with
  | nil => rfl
  | cons b t ih => simp only [List.foldl, ih, Write_body]

/-- A template that only writes leaves a response whose status, once sent, is 200. -/
theorem foldl_Write_status (ws : List String) (w : ResponseWriter)
    (h : w.wroteHeader = true → w.status = StatusOK) :
    (ws.foldl ResponseWriter.Write w).wroteHeader = true →
      (ws.foldl ResponseWriter.Write w).status = StatusOK := by
  induction ws generalizing w with
  | nil => exact h
  | cons b t ih =>
    simp only [List.foldl]
    apply ih
    intro _
    rw [Write_status]
    by_cases hw : w.wroteHeader = true
    · simp [hw, h hw]
    · simp [hw]

theorem finishRequest_status (w : ResponseWriter)
    (h : w.wroteHeader = true → w.status = StatusOK) : w.finishRequest.status = StatusOK := by
  unfold ResponseWriter.finishRequest ResponseWriter.WriteHeader
  by_cases hw : w.wroteHeader = true
  · simp [hw, h hw]
  · simp [hw]

theorem finishRequest_body (w : ResponseWriter) : w.finishRequest.body = w.body := by
  unfold ResponseWriter.finishRequest ResponseWriter.WriteHeader
  by_cases hw : w.wroteHeader = true <;> simp [hw]

theorem foldl_append_infix (ws : List String) (acc s : String) (h : s ∈ ws) :
    s.data <:+: (ws.foldl (fun a b => a ++ b) acc).data := by
  have hpre : ∀ (l : List String) (a : String),
      a.data <+: (l.foldl (fun a b => a ++ b) a).data := by
    intro l
    induction l with
    | nil => intro a; exact List.prefix_refl _
    | cons b t ih =>
      intro a
      simp only [List.foldl]
      refine List.IsPrefix.trans ?_ (ih (a ++ b))
      rw [String.data_append]
      exact List.prefix_append _ _
  induction ws generalizing acc with
  | nil => simp at h
  | cons b t ih =>
    simp only [List.foldl]
    rcases List.mem_cons.mp h with hb | ht
    · subst hb
      have h1 : s.data <:+: (acc ++ s).data := by
        rw [String.data_append]
        exact List.IsSuffix.isInfix (List.suffix_append _ _)
      exact List.IsInfix.trans h1 (List.IsPrefix.isInfix (hpre t (acc ++ s)))
    · exact ih (acc ++ b) ht

theorem sent_status (r : Request) (w : ResponseWriter) : (sent r w).status = w.status := by
  unfold sent
  by_cases h : r.Method = "HEAD" <;> simp [h]

theorem sent_of_not_head (r : Request) (w : ResponseWriter) (h : r.Method ≠ "HEAD") :
    sent r w = w := by
  simp [sent, h]

/-- Each route of the title table is registered under its own pattern, is
canonical, and its handler sets the listed title whatever the request. -/
theorem route_title (path title : String) (h : (path, title) ∈ pageTitles) :
    ∃ f : Request → Render,
      portfolioMux.m.lookup path = some { h := Handler.HandlerFunc f, pattern := path } ∧
      cleanPath path = path ∧ ∀ r : Request, (f r).data.PageTitle = title := by
  simp only [pageTitles, List.mem_cons, Prod.mk.injEq, List.mem_nil_iff, or_false] at h
  rcases h with h | h | h | h | h | h | h | h <;> obtain ⟨h1, h2⟩ := h <;> subst h1 <;> subst h2
  · exact ⟨homeHandler, rfl, by decide, fun _ => rfl⟩
  · exact ⟨aboutHandler, rfl, by decide, fun _ => rfl⟩
  · exact ⟨projectsHandler, rfl, by decide, fun _ => rfl⟩
  · exact ⟨blogHandler, rfl, by decide, fun _ => rfl⟩
  · exact ⟨demoPIIDiscoveryHandler, rfl, by decide, fun _ => rfl⟩
  · exact ⟨demoSyntheticDataHandler, rfl, by decide, fun _ => rfl⟩
  · exact ⟨demoConsentManagerHandler, rfl, by decide, fun _ => rfl⟩
  · exact ⟨demoRiskAssessmentHandler, rfl, by decide, fun _ => rfl⟩

/-- C7: for each of the eight routes, served by the route table of `main`, if
the execution of the route's template reports no error then the handler's
data carries the route's page title (`/about`: "About Me") and the response
has status 200; for a GET, and any method but HEAD, its body is exactly what
the template wrote and contains the title when the template prints it; the
reply to a HEAD has the same status and no body. -/
theorem C7_defined_route_ok (env : Env) (p : Process) (r : Request) (title : String)
    (hmux : p.mux = portfolioMux)
    (hroute : (r.Path, title) ∈ pageTitles)
    (hok : ∀ c : Render, dispatchedRender p.mux r = some c →
      (ExecuteTemplate p.templates {} c.tmpl c.data).2 = none) :
    ∃ (c : Render) (t : Template),
      dispatchedRender p.mux r = some c ∧ c.data.PageTitle = title ∧
      p.templates.lookup c.tmpl = some t ∧
      (serve env p r).1.status = StatusOK ∧
      (r.Method ≠ "HEAD" →
        (serve env p r).1.body = String.join (t c.data).writes ∧
        (title ∈ (t c.data).writes → title.data <:+: (serve env p r).1.body.data)) ∧
      (r.Method = "HEAD" → (serve env p r).1.body = "") := by
  obtain ⟨f, hl, hc, hf⟩ := route_title r.Path title hroute
  have hH : p.mux.Handler r = (Handler.HandlerFunc f, r.Path) := by
    rw [hmux]
    exact Handler_of_exact portfolioMux r _ portfolioMux_hosts hl hc
  have hd : dispatchedRender p.mux r = some (f r) := by
    simp [dispatchedRender, hH]
  have hex := hok (f r) hd
  unfold ExecuteTemplate at hex
  cases hlk : p.templates.lookup (f r).tmpl with
  | none => rw [hlk] at hex; simp at hex
  | some t =>
    rw [hlk] at hex
    simp only [Option.map_eq_none'] at hex
    have hserve : (serve env p r).1 =
        sent r ((t (f r).data).writes.foldl ResponseWriter.Write {}).finishRequest := by
      simp [serve, ServeMux.ServeHTTP, hH, Handler.ServeHTTP, renderTemplate,
        ExecuteTemplate, hlk, hex]
    refine ⟨f r, t, hd, hf r, hlk, ?_, ?_, ?_⟩
    · rw [hserve, sent_status]
      apply finishRequest_status
      apply foldl_Write_status
      intro h
      simp at h
    · intro hm
      have hbody : (serve env p r).1.body = String.join (t (f r).data).writes := by
        rw [hserve, sent_of_not_head r _ hm, finishRequest_body, foldl_Write_body]
        rfl
      refine ⟨hbody, ?_⟩
      intro hmem
      rw [hbody]
      exact foldl_append_infix _ _ _ hmem
    · intro hm
      rw [hserve]
      simp [sent, hm]

/-- C7 at `GET /about` on a started server whose templates print the title. -/
theorem C7_defined_route_ok_witness :
    ((run sampleEnv).mux = portfolioMux ∧ ("/about", "About Me") ∈ pageTitles ∧
      (serve sampleEnv (run sampleEnv) { Path := "/about" }).1.body = "<h1>About Me</h1>") ∧
    ∃ (c : Render) (t : Template),
      dispatchedRender (run sampleEnv).mux { Path := "/about" } = some c ∧
      c.data.PageTitle = "About Me" ∧
      (run sampleEnv).templates.lookup c.tmpl = some t ∧
      (serve sampleEnv (run sampleEnv) { Path := "/about" }).1.status = StatusOK ∧
      (({ Path := "/about" } : Request).Method ≠ "HEAD" →
        (serve sampleEnv (run sampleEnv) { Path := "/about" }).1.body =
          String.join (t c.data).writes ∧
        ("About Me" ∈ (t c.data).writes →
          "About Me".data <:+:
            (serve sampleEnv (run sampleEnv) { Path := "/about" }).1.body.data)) ∧
      (({ Path := "/about" } : Request).Method = "HEAD" →
        (serve sampleEnv (run sampleEnv) { Path := "/about" }).1.body = "") :=
  ⟨⟨rfl, by decide, by decide⟩,
   C7_defined_route_ok sampleEnv (run sampleEnv) { Path := "/about" } "About Me" rfl (by decide)
     (by
       intro c hc
       have h2 : dispatchedRender (run sampleEnv).mux { Path := "/about" } =
           some (aboutHandler { Path := "/about" }) := by decide
       rw [h2] at hc
       cases hc
       decide)⟩

/-- An error reported before anything was written gives the generic 500
reply: the fixed text and a log line with the template name and the cause. -/
theorem renderTemplate_error_unwritten (templates : TemplateSet) (w : ResponseWriter)
    (tmpl : String) (data : TemplateData) (err : ExecError)
    (hw : w.wroteHeader = false)
    (h : ExecuteTemplate templates w tmpl data = (w, some err)) :
    (renderTemplate templates w tmpl data).1.status = StatusInternalServerError ∧
    (renderTemplate templates w tmpl data).1.body = w.body ++ "Internal Server Error\n" ∧
    (renderTemplate templates w tmpl data).2 =
      ["Error rendering template " ++ tmpl ++ ": " ++ err.Error] := by
  simp [renderTemplate, h, Error, ResponseWriter.Write, ResponseWriter.WriteHeader,
    ResponseWriter.Set, ResponseWriter.Del, hw]

/-! ## Statelessness -/

theorem parseFiles_names (env : Env) (files : List String) :
    ∀ t0 t : TemplateSet, parseFiles env t0 files = Except.ok t →
      (∀ n : String, (t0.lookup n).isSome = true → (t.lookup n).isSome = true) ∧
      ∀ f ∈ files, (t.lookup (Base f)).isSome = true := by
  induction files with
  | nil =>
    intro t0 t h
    simp only [parseFiles, Except.ok.injEq] at h
    subst h
    exact ⟨fun _ hn => hn, fun f hf => absurd hf (List.not_mem_nil f)⟩
  | cons file rest ih =>
    intro t0 t h
    unfold parseFiles at h
    cases hr : env.ReadFile file with
    | error e => rw [hr] at h; simp at h
    | ok s =>
      rw [hr] at h
      simp only at h
      cases hp : env.Parse (Base file) s with
      | error e => rw [hp] at h; simp at h
      | ok tmpl =>
        rw [hp] at h
        simp only at h
        obtain ⟨hkeep, hrest⟩ := ih _ t h
        constructor
        · intro n hn
          apply hkeep
          simp only [List.lookup]
          cases hb : (n == Base file) with
          | true => rfl
          | false => exact hn
        · intro f hf
          rcases List.mem_cons.mp hf with h1 | h1
          · subst h1
            apply hkeep
            simp [List.lookup]
          · exact hrest f h1

theorem parseFiles_error (env : Env) (file : String)
    (hbad : (∃ e, env.ReadFile file = Except.error e) ∨
      (∃ s e, env.ReadFile file = Except.ok s ∧ env.Parse (Base file) s = Except.error e))
    (files : List String) :
    ∀ t0 : TemplateSet, file ∈ files → ∃ e, parseFiles env t0 files = Except.error e := by
  induction files with
  | nil => intro t0 h; exact absurd h (List.not_mem_nil file)
  | cons f rest ih =>
    intro t0 hmem
    unfold parseFiles
    cases hr : env.ReadFile f with
    | error e => exact ⟨e, rfl⟩
    | ok s =>
      simp only
      cases hp : env.Parse (Base f) s with
      | error e => exact ⟨e, rfl⟩
      | ok tmpl =>
        simp only
        rcases List.mem_cons.mp hmem with h1 | h1
        · exfalso
          subst h1
          rcases hbad with ⟨e, he⟩ | ⟨s2, e, hs2, he⟩
          · rw [he] at hr; cases hr
          · rw [hs2] at hr
            cases hr
            rw [he] at hp
            cases hp
        · exact ih _ h1

theorem templates_eq_parseFiles (env : Env) :
    templates env = parseFiles env [] templateFiles :=
  rfl

/-- C4: when `template.Must(template.ParseFiles(...))` succeeds, the template
name passed by any handler function of the route table is the base name of a
parsed file and is in the set, so `ExecuteTemplate` never reports it as
undefined. -/
theorem C4_handler_templates_exist (env : Env) (t : TemplateSet) (pattern : String)
    (r : Request) (c : Render)
    (hstart : templates env = Except.ok t)
    (hbound : boundRender portfolioMux pattern r = some c) :
    c.tmpl ∈ templateFiles.map Base ∧ (t.lookup c.tmpl).isSome = true ∧
    ∀ w : ResponseWriter,
      (ExecuteTemplate t w c.tmpl c.data).2 ≠ some (ExecError.undefined c.tmpl) := by
  rw [templates_eq_parseFiles] at hstart
  have hnames := (parseFiles_names env templateFiles [] t hstart).2
  have hm := boundRender_cases pattern r c hbound
  have hfile : c.tmpl ∈ templateFiles.map Base := by
    simp only [List.mem_cons, Prod.mk.injEq, List.mem_nil_iff, or_false] at hm
    rcases hm with h | h | h | h | h | h | h | h <;> rw [h.2]
    · exact (by decide : "index.html" ∈ templateFiles.map Base)
    · exact (by decide : "about.html" ∈ templateFiles.map Base)
    · exact (by decide : "projects.html" ∈ templateFiles.map Base)
    · exact (by decide : "blog.html" ∈ templateFiles.map Base)
    · exact (by decide : "demo_pii_discovery.html" ∈ templateFiles.map Base)
    · exact (by decide : "demo_synthetic_data.html" ∈ templateFiles.map Base)
    · exact (by decide : "demo_consent_manager.html" ∈ templateFiles.map Base)
    · exact (by decide : "demo_risk_assessment.html" ∈ templateFiles.map Base)
  have hlook : (t.lookup c.tmpl).isSome = true := by
    obtain ⟨f, hf, hb⟩ := List.mem_map.mp hfile
    rw [← hb]
    exact hnames f hf
  refine ⟨hfile, hlook, ?_⟩
  intro w
  unfold ExecuteTemplate
  cases hl : t.lookup c.tmpl with
  | none => rw [hl] at hlook; simp at hlook
  | some tmpl =>
    simp only
    cases (tmpl c.data).err <;> simp

/-- C4 at the handler of `/demo/data-discovery` with all files present. -/
theorem C4_handler_templates_exist_witness :
    (templates sampleEnv = Except.ok (run sampleEnv).templates ∧
      boundRender portfolioMux "/demo/data-discovery" { Path := "/demo/data-discovery" } =
        some (demoPIIDiscoveryHandler { Path := "/demo/data-discovery" })) ∧
    ((demoPIIDiscoveryHandler { Path := "/demo/data-discovery" }).tmpl ∈
        templateFiles.map Base ∧
      ((run sampleEnv).templates.lookup
        (demoPIIDiscoveryHandler { Path := "/demo/data-discovery" }).tmpl).isSome = true ∧
      ∀ w : ResponseWriter,
        (ExecuteTemplate (run sampleEnv).templates w
          (demoPIIDiscoveryHandler { Path := "/demo/data-discovery" }).tmpl
          (demoPIIDiscoveryHandler { Path := "/demo/data-discovery" }).data).2 ≠
          some (ExecError.undefined
            (demoPIIDiscoveryHandler { Path := "/demo/data-discovery" }).tmpl)) :=
  ⟨⟨rfl, rfl⟩,
   C4_handler_templates_exist sampleEnv (run sampleEnv).templates "/demo/data-discovery"
     { Path := "/demo/data-discovery" } _ rfl rfl⟩

/-- C9: if one of the eight template files cannot be read or does not parse,
the process dies with that error during package initialisation: no route is
registered, nothing is logged, no listener is bound and no template set is
kept. -/
theorem C9_bad_template_aborts_startup (env : Env) (file : String)
    (hfile : file ∈ templateFiles)
    (hbad : (∃ e, env.ReadFile file = Except.error e) ∨
      (∃ s e, env.ReadFile file = Except.ok s ∧ env.Parse (Base file) s = Except.error e)) :
    (∃ e, templates env = Except.error e ∧ (run env).exit = some e) ∧
    (run env).mux.m = [] ∧ (run env).mux.es = [] ∧
    (run env).listener = none ∧ (run env).templates = [] ∧ (run env).log = [] := by
  obtain ⟨e, he⟩ := parseFiles_error env file hbad templateFiles [] hfile
  rw [← templates_eq_parseFiles] at he
  simp [run, he]

/-- C9 with `templates/blog.html` removed. -/
theorem C9_bad_template_aborts_startup_witness :
    ("templates/blog.html" ∈ templateFiles ∧
      missingEnv.ReadFile "templates/blog.html" =
        Except.error "open templates/blog.html: no such file or directory") ∧
    ((∃ e, templates missingEnv = Except.error e ∧ (run missingEnv).exit = some e) ∧
      (run missingEnv).mux.m = [] ∧ (run missingEnv).mux.es = [] ∧
      (run missingEnv).listener = none ∧ (run missingEnv).templates = [] ∧
      (run missingEnv).log = []) :=
  ⟨⟨by decide, rfl⟩,
   C9_bad_template_aborts_startup missingEnv "templates/blog.html" (by decide)
     (Or.inl ⟨_, rfl⟩)⟩

/-- A process that is listening has parsed all eight template files and
registered the whole route table: there is no start-up with a subset. -/
theorem run_listening_complete (env : Env) (addr : String)
    (h : (run env).listener = some addr) :
    addr = "0.0.0.0:8080" ∧ (run env).mux.m = portfolioMux.m ∧
    (run env).mux.es = portfolioMux.es ∧
    templates env = Except.ok (run env).templates ∧
    ∀ f ∈ templateFiles, ((run env).templates.lookup (Base f)).isSome = true := by
  unfold run at h ⊢
  cases ht : templates env with
  | error e => rw [ht] at h; simp at h
  | ok t =>
    have hnames := (parseFiles_names env templateFiles [] t
      (by rw [← templates_eq_parseFiles]; exact ht)).2
    rw [ht] at h
    simp only at h ⊢
    unfold main at h ⊢
    have hreg : registerRoutes ({ templates := t } : Process).mux = Except.ok portfolioMux := rfl
    rw [hreg] at h ⊢
    simp only at h ⊢
    cases hl : env.ListenAndServe "0.0.0.0:8080" with
    | some err => rw [hl] at h; simp at h
    | none =>
      rw [hl] at h
      simp only [Option.some.injEq] at h
      exact ⟨h.symm, rfl, rfl, rfl, hnames⟩

end Portfolio
